import Mathlib

/-!
Verification of `tensortrade/data/cdd.py` (class `CryptoDataDownload`).

The Python module retrieves OHLCV price tables over HTTP with pandas and
reshapes them.  We embed a pandas `DataFrame` as a list of named columns
(column-oriented, which matches every operation the module performs: column
drop / rename / assignment, row reversal, `set_index`/`reset_index`).
Network I/O is modelled by an oracle `String → Except String _` mapping the
requested URL to either the parsed payload or a transport/parse error, and
each fetch routine additionally returns the list of URLs it requested, so
that "exactly one request, no retry, no fallback" is provable.

Numeric cells are embedded as `Int` (pandas `int64` columns; the `unix`
column is the only one whose values the module inspects).  `Cell.ts n`
stands for the pandas timestamp built from epoch-seconds `n`
(`pd.to_datetime(_, unit="s")` / `datetime.fromtimestamp`).
-/

/-- A cell of a DataFrame column.  `int` covers pandas integer cells,
`str` object/string cells, `ts` timestamps built from epoch seconds,
`na` the NaN fill used for missing fields. -/
inductive Cell where
  | int : Int → Cell
  | str : String → Cell
  | ts : Int → Cell
  | na : Cell
deriving Repr, DecidableEq, Inhabited

/-- Column-oriented DataFrame: ordered columns, each a name with its values. -/
structure DataFrame where
  cols : List (String × List Cell)
deriving Repr, DecidableEq

/-- The column names, in order. -/
def DataFrame.names (df : DataFrame) : List String :=
  df.cols.map Prod.fst

/-- Result of `pd.read_csv(url, skiprows=1)`: the banner row is skipped,
`header` is the first unskipped line, `rows` the data lines.  `read_csv`
mangles duplicate header labels, so headers coming from it have distinct
names. -/
structure CsvFile where
  header : List String
  rows : List (List Cell)
deriving Repr, DecidableEq

/-- Python `str.lower()` (source operates on ASCII column/exchange names). -/
def lowercase (s : String) : String :=
  ⟨s.data.map Char.toLower⟩

/-- The constant set in `CryptoDataDownload.__init__` (cdd.py line 31). -/
def cddBaseUrl : String := "https://www.cryptodatadownload.com/cdd/"

/-- cdd.py line 61: `"{}_{}{}_{}.csv".format(exchange_name, quote_symbol, base_symbol, timeframe)`. -/
def defaultFilename (exchange base quote tf : String) : String :=
  exchange ++ "_" ++ quote ++ base ++ "_" ++ tf ++ ".csv"

/-- cdd.py lines 175-176: `if timeframe.endswith("h"): timeframe = timeframe[:-1] + "hr"`. -/
def geminiTimeframe (tf : String) : String :=
  if tf.data.getLast? = some 'h' then (⟨tf.data.dropLast⟩ : String) ++ "hr" else tf

/-- cdd.py line 177: `"{}_{}{}_{}.csv".format("gemini", quote_symbol, base_symbol, timeframe)`
with the rewritten timeframe. -/
def geminiFilename (base quote tf : String) : String :=
  "gemini" ++ "_" ++ quote ++ base ++ "_" ++ geminiTimeframe tf ++ ".csv"

/-- cdd.py lines 72-75: `lambda x: int(x / 1000) if len(str(x)) == 13 else x`.
For every `x` whose decimal string has 13 characters, `|x| ≤ 10^13 < 2^53`,
so the float division `x / 1000` is within `10^-6` of the exact quotient and
`int(_)` truncates it to exactly `Int.tdiv x 1000` (truncation toward zero,
as Python `int()` does). -/
def normalizeUnix (x : Int) : Int :=
  if (toString x).length = 13 then Int.tdiv x 1000 else x

/-- Build the columns of `pd.read_csv`'s result: the j-th header name paired
with the j-th field of every row (missing fields become NaN). -/
def colsFrom (header : List String) (rows : List (List Cell)) (j : Nat) :
    List (String × List Cell) :=
  match header with
  | [] => []
  | n :: rest => (n, rows.map (fun r => r.getD j Cell.na)) :: colsFrom rest rows (j + 1)

/-- The DataFrame produced by `pd.read_csv(url, skiprows=1)` from a fetched file. -/
def parseCsv (f : CsvFile) : DataFrame :=
  ⟨colsFrom f.header f.rows 0⟩

/-- `df[::-1]`: reverse the row order (column-wise: reverse every column). -/
def reverseRows (df : DataFrame) : DataFrame :=
  ⟨df.cols.map (fun c => (c.1, c.2.reverse))⟩

/-- `df.drop(names, axis=1)`: remove the named columns; `KeyError` if one of
the labels is absent, exactly as pandas raises. -/
def dropCols (df : DataFrame) (names : List String) : Except String DataFrame :=
  if names.all (fun n => df.cols.any (fun c => c.1 == n)) then
    .ok ⟨df.cols.filter (fun c => !(names.contains c.1))⟩
  else .error "KeyError: drop"

/-- `df.rename(mapping, axis=1)` (total on names, as in pandas). -/
def renameCols (f : String → String) (df : DataFrame) : DataFrame :=
  ⟨df.cols.map (fun c => (f c.1, c.2))⟩

/-- `df[name]`: the values of the (first) column so named; `KeyError` if absent. -/
def getCol (df : DataFrame) (name : String) : Except String (List Cell) :=
  match df.cols.find? (fun c => c.1 == name) with
  | some c => .ok c.2
  | none => .error ("KeyError: " ++ name)

/-- `df[name] = values`: overwrite the values of the columns so named, or
append a new column at the end when the label is absent. -/
def setCol (df : DataFrame) (name : String) (vs : List Cell) : DataFrame :=
  if df.cols.any (fun c => c.1 == name) then
    ⟨df.cols.map (fun c => if c.1 == name then (c.1, vs) else c)⟩
  else ⟨df.cols ++ [(name, vs)]⟩

/-- `series.astype(int)` on the `unix` column: every cell must already be an
integer cell (the `unix` column of a provider CSV parses as `int64`). -/
def astypeInt : List Cell → Except String (List Int)
  | [] => .ok []
  | Cell.int n :: rest =>
    match astypeInt rest with
    | .ok ns => .ok (n :: ns)
    | .error e => .error e
  | _ :: _ => .error "ValueError: astype"

/-- cdd.py lines 78-80 of `fetch_default`: `set_index("date")`, lower-case the
remaining column names (the index name is untouched), `reset_index()` — net
effect: the first `date` column moves to the front, every other name is
lower-cased. -/
def setIndexResetLower (df : DataFrame) : Except String DataFrame :=
  match df.cols.find? (fun c => c.1 == "date") with
  | none => .error "KeyError: date"
  | some c =>
    .ok ⟨c :: (df.cols.eraseP (fun d => d.1 == "date")).map (fun d => (lowercase d.1, d.2))⟩

/-- cdd.py lines 182-183 of `fetch_gemini`: `set_index("date")` directly
followed by `reset_index()` — the first `date` column moves to the front. -/
def setIndexReset (df : DataFrame) : Except String DataFrame :=
  match df.cols.find? (fun c => c.1 == "date") with
  | none => .error "KeyError: date"
  | some c => .ok ⟨c :: df.cols.eraseP (fun d => d.1 == "date")⟩

/-- cdd.py line 70: the rename dict
`{base_vc: "volume_base", quote_vc: "volume_quote", "Date": "date"}`.
When `base_vc = quote_vc` the later dict entry wins, so the quote key is
tested first. -/
def defaultRename (base quote : String) (n : String) : String :=
  if n = "Volume " ++ quote then "volume_quote"
  else if n = "Volume " ++ base then "volume_base"
  else if n = "Date" then "date"
  else n

/-- The body of `fetch_default` (cdd.py lines 61-85) applied to the outcome
of its single `read_csv` call. -/
def fetchDefaultCore (base quote : String) (include_all_volumes : Bool)
    (input : Except String CsvFile) : Except String DataFrame :=
  match input with
  | .error e => .error e
  | .ok file =>
    match dropCols (reverseRows (parseCsv file)) ["symbol"] with
    | .error e => .error e
    | .ok df1 =>
      let df2 := renameCols (defaultRename base quote) df1
      match getCol df2 "unix" with
      | .error e => .error e
      | .ok uraw =>
        match astypeInt uraw with
        | .error e => .error e
        | .ok u0 =>
          let u := u0.map normalizeUnix
          let df3 := setCol df2 "unix" (u.map Cell.int)
          let df4 := setCol df3 "date" (u.map Cell.ts)
          match setIndexResetLower df4 with
          | .error e => .error e
          | .ok df5 =>
            if include_all_volumes then .ok df5
            else
              match dropCols df5 ["volume_quote"] with
              | .error e => .error e
              | .ok df6 =>
                .ok (renameCols (fun n => if n = "volume_base" then "volume" else n) df6)

/-- `CryptoDataDownload.fetch_default`: issues exactly one request for the
constructed locator and reshapes the response; second component is the list
of requested URLs. -/
def fetch_default (exchange base quote tf : String) (include_all_volumes : Bool)
    (net : String → Except String CsvFile) :
    Except String DataFrame × List String :=
  let url := cddBaseUrl ++ defaultFilename exchange base quote tf
  (fetchDefaultCore base quote include_all_volumes (net url), [url])

/-- The body of `fetch_gemini` (cdd.py lines 178-184) applied to the outcome
of its single `read_csv` call. -/
def geminiCore (input : Except String CsvFile) : Except String DataFrame :=
  match input with
  | .error e => .error e
  | .ok file =>
    match dropCols (reverseRows (parseCsv file)) ["Symbol", "Unix Timestamp"] with
    | .error e => .error e
    | .ok df1 => setIndexReset (renameCols lowercase df1)

/-- `CryptoDataDownload.fetch_gemini` (cdd.py lines 153-184). -/
def fetch_gemini (base quote tf : String)
    (net : String → Except String CsvFile) :
    Except String DataFrame × List String :=
  let url := cddBaseUrl ++ geminiFilename base quote tf
  (geminiCore (net url), [url])

/-- Epoch seconds of 2022-08-24T00:00:00Z (`1661299200`). -/
def aug24UtcMidnight : Int := 1661299200

/-- cdd.py line 119: `datetime(2022, 8, 24, 0, 0).strftime('%s')` — epoch
seconds of 2022-08-24 00:00 local time, where `tzOffset` is the local UTC
offset in seconds (east positive). -/
def mofidStartEpoch (tzOffset : Int) : Int := aug24UtcMidnight - tzOffset

/-- cdd.py line 120: `datetime(2022, 8, 24, 23, 59).strftime('%s')` — epoch
seconds of 2022-08-24 23:59 local time. -/
def mofidEndEpoch (tzOffset : Int) : Int := aug24UtcMidnight + 86340 - tzOffset

/-- cdd.py line 122: the Mofid chart query.  The `resolution` field is the
reassigned `timeframe = '1'`, never the caller's argument. -/
def mofidUrl (base : String) (tzOffset : Int) : String :=
  "https://rlcchartapi.mofidonline.com/ChartData/history?symbol=" ++ base
    ++ "&resolution=1&from=" ++ toString (mofidStartEpoch tzOffset)
    ++ "&to=" ++ toString (mofidEndEpoch tzOffset)

/-- The parsed Mofid JSON payload: parallel arrays `t,o,h,l,c,v`
(`t` entries are epoch seconds, converted with `int(...)` in the source). -/
structure MofidResponse where
  t : List Int
  o : List Cell
  h : List Cell
  l : List Cell
  c : List Cell
  v : List Cell
deriving Repr, DecidableEq

/-- The parallel arrays are at least as long as `t` (the loop indexes all of
them up to `len(t)`). -/
def MofidResponse.wellFormed (r : MofidResponse) : Prop :=
  r.t.length ≤ r.o.length ∧ r.t.length ≤ r.h.length ∧ r.t.length ≤ r.l.length ∧
    r.t.length ≤ r.c.length ∧ r.t.length ≤ r.v.length

instance (r : MofidResponse) : Decidable r.wellFormed := by
  unfold MofidResponse.wellFormed; infer_instance

/-- cdd.py lines 124-138: the empty frame with columns
`['date','open','high','low','close', f'{base_vc}', 'volume']` filled by the
append loop over `range(len(t))`; an `IndexError` surfaces when a parallel
array is shorter than `t`. -/
def buildMofidDf (base : String) (r : MofidResponse) : Except String DataFrame :=
  let size := r.t.length
  if r.wellFormed then
    .ok ⟨[("date", r.t.map Cell.ts),
          ("open", r.o.take size), ("high", r.h.take size), ("low", r.l.take size),
          ("close", r.c.take size),
          ("Volume " ++ base, r.v.take size), ("volume", r.v.take size)]⟩
  else .error "IndexError"

/-- The body of `fetch_mofid` (cdd.py lines 124-151) applied to the outcome
of its single `urlopen` call.  After the rename it reads `df["unix"]`
(line 142), a column the constructed frame never contains. -/
def mofidCore (base quote : String) (input : Except String MofidResponse) :
    Except String DataFrame :=
  match input with
  | .error e => .error e
  | .ok r =>
    match buildMofidDf base r with
    | .error e => .error e
    | .ok df0 =>
      let df1 := renameCols (defaultRename base quote) df0
      match getCol df1 "unix" with
      | .error e => .error e
      | .ok uraw =>
        match astypeInt uraw with
        | .error e => .error e
        | .ok u0 =>
          let u := u0.map normalizeUnix
          let df3 := setCol df1 "unix" (u.map Cell.int)
          let df4 := setCol df3 "date" (u.map Cell.ts)
          setIndexResetLower df4

/-- `CryptoDataDownload.fetch_mofid` (cdd.py lines 87-151).  The `tf`
argument is received but immediately shadowed by `timeframe = '1'`. -/
def fetch_mofid (base quote tf : String) (tzOffset : Int)
    (net : String → Except String MofidResponse) :
    Except String DataFrame × List String :=
  let url := mofidUrl base tzOffset
  (mofidCore base quote (net url), [url])

/-- `CryptoDataDownload.fetch` (cdd.py lines 186-221): case-insensitive
dispatch on the exchange name, defaulting to `fetch_default`. -/
def fetch (exchange base quote tf : String) (include_all_volumes : Bool)
    (tzOffset : Int)
    (netCsv : String → Except String CsvFile)
    (netJson : String → Except String MofidResponse) :
    Except String DataFrame × List String :=
  if lowercase exchange = "gemini" then fetch_gemini base quote tf netCsv
  else if lowercase exchange = "mofid" then fetch_mofid base quote tf tzOffset netJson
  else fetch_default exchange base quote tf include_all_volumes netCsv

/-- The header of a default-provider CSV file after the banner row:
`unix,date,symbol,open,high,low,close,Volume <base>,Volume <quote>`. -/
def stdHeader (base quote : String) : List String :=
  ["unix", "date", "symbol", "open", "high", "low", "close",
   "Volume " ++ base, "Volume " ++ quote]

/-! ## Fixtures shared by witnesses -/

/-- A network oracle whose every request fails with a transport error. -/
def demoNetCsv : String → Except String CsvFile := fun _ => .error "HTTP Error 404"

/-- A JSON network oracle whose every request fails with a transport error. -/
def demoNetJson : String → Except String MofidResponse := fun _ => .error "HTTP Error 404"

/-- Three default-provider data rows, newest first, 13-digit unix stamps. -/
def fixtureRows : List (List Cell) :=
  [[Cell.int 1700000200000, Cell.str "d", Cell.str "s", Cell.int 1, Cell.int 2,
    Cell.int 3, Cell.int 4, Cell.int 5, Cell.int 6],
   [Cell.int 1700000100000, Cell.str "d", Cell.str "s", Cell.int 1, Cell.int 2,
    Cell.int 3, Cell.int 4, Cell.int 5, Cell.int 6],
   [Cell.int 1700000000000, Cell.str "d", Cell.str "s", Cell.int 1, Cell.int 2,
    Cell.int 3, Cell.int 4, Cell.int 5, Cell.int 6]]

/-- A network oracle serving the fixture CSV for every request. -/
def fixtureNet : String → Except String CsvFile :=
  fun _ => .ok ⟨stdHeader "BTC" "USD", fixtureRows⟩

/-- Decimal digit count of an integer (the sign is not a digit). -/
def digitCount (x : Int) : Nat := (Nat.repr x.natAbs).length

/-- A concrete two-sample well-formed Mofid response. -/
def demoMofidResponse : MofidResponse :=
  ⟨[1661312100, 1661312160],
   [Cell.int 10, Cell.int 11], [Cell.int 12, Cell.int 13],
   [Cell.int 9, Cell.int 10], [Cell.int 11, Cell.int 12],
   [Cell.int 100, Cell.int 200]⟩



/-- The non-unix tail shared by the fixture rows. -/
def fixTail : List Cell :=
  [Cell.str "d", Cell.str "s", Cell.int 1, Cell.int 2, Cell.int 3,
   Cell.int 4, Cell.int 5, Cell.int 6]

/-- The frame produced by a successful fixture fetch. -/
def fixtureResult : DataFrame :=
  match (fetch_default "binance" "BTC" "USD" "d" false fixtureNet).1 with
  | .ok df => df
  | .error _ => ⟨[]⟩

/-! ## Helper lemmas -/

/-- A string shorter than 7 characters is never `"Volume " ++ s`. -/
theorem ne_volume_append (s t : String) (h : t.length < 7) : t ≠ "Volume " ++ s := by
  intro hEq
  have hlen : t.length = ("Volume " ++ s).length := congrArg String.length hEq
  rw [String.length_append] at hlen
  have : "Volume ".length = 7 := rfl
  omega

/-- Appending to `"Volume "` is injective. -/
theorem volume_append_inj (s t : String) (h : "Volume " ++ s = "Volume " ++ t) : s = t := by
  have := congrArg String.data h
  simp only [String.data_append] at this
  exact String.ext (List.append_cancel_left this)

/-- Exact length of `Nat.toDigitsCore` for a number with `k` decimal digits. -/
theorem toDigitsCore_length_eq :
    ∀ (fuel n : Nat) (acc : List Char) (k : Nat), n < fuel → 0 < k →
      10 ^ (k - 1) ≤ n → n < 10 ^ k →
      (Nat.toDigitsCore 10 fuel n acc).length = k + acc.length := by
  intro fuel
  induction fuel with
  | zero => exact fun n acc k h _ _ _ => absurd h (Nat.not_lt_zero n)
  | succ fuel ih =>
    intro n acc k hfuel hk hlow hhigh
    by_cases hd : n / 10 = 0
    · have hn10 : n < 10 := by omega
      have hk1 : k = 1 := by
        by_contra hne
        have h2k : 2 ≤ k := by omega
        have : 10 ^ 1 ≤ 10 ^ (k - 1) := Nat.pow_le_pow_right (by norm_num) (by omega)
        simp at this
        omega
      subst hk1
      simp [Nat.toDigitsCore, hd]
      omega
    · have hn10 : 10 ≤ n := by omega
      have h2k : 2 ≤ k := by
        by_contra hne
        have hk1 : k = 1 := by omega
        subst hk1
        simp at hhigh
        omega
      have hlow' : 10 ^ (k - 2) ≤ n / 10 := by
        rw [Nat.le_div_iff_mul_le (by norm_num)]
        calc 10 ^ (k - 2) * 10 = 10 ^ (k - 2 + 1) := by rw [pow_succ]
        _ = 10 ^ (k - 1) := by congr 1; omega
        _ ≤ n := hlow
      have hhigh' : n / 10 < 10 ^ (k - 1) := by
        rw [Nat.div_lt_iff_lt_mul (by norm_num)]
        calc n < 10 ^ k := hhigh
        _ = 10 ^ (k - 1 + 1) := by congr 1; omega
        _ = 10 ^ (k - 1) * 10 := by rw [pow_succ]
      have hfuel' : n / 10 < fuel := by omega
      have := ih (n / 10) (Nat.digitChar (n % 10) :: acc) (k - 1)
        hfuel' (by omega) hlow' hhigh'
      simp only [Nat.toDigitsCore, hd, if_false]
      rw [this]
      simp
      omega

/-- Exact length of the decimal representation of a natural number with `k` digits. -/
theorem natRepr_length_eq (n k : Nat) (hk : 0 < k)
    (hlow : 10 ^ (k - 1) ≤ n) (hhigh : n < 10 ^ k) : (Nat.repr n).length = k := by
  have h := toDigitsCore_length_eq (n + 1) n [] k (Nat.lt_succ_self n) hk hlow hhigh
  simpa [Nat.repr, Nat.toDigits, List.asString, String.length] using h

/-- Characterization of decimal length for `k ≥ 2`. -/
theorem natRepr_length_eq_iff (n k : Nat) (hk : 2 ≤ k) :
    (Nat.repr n).length = k ↔ 10 ^ (k - 1) ≤ n ∧ n < 10 ^ k := by
  constructor
  · intro h
    rcases Nat.eq_zero_or_pos n with rfl | hn
    · have h0 : (Nat.repr 0).length = 1 := rfl
      omega
    · have h1 : 10 ^ Nat.log 10 n ≤ n := Nat.pow_log_le_self 10 (by omega)
      have h2 : n < 10 ^ (Nat.log 10 n + 1) := Nat.lt_pow_succ_log_self (by norm_num) n
      have h3 := natRepr_length_eq n (Nat.log 10 n + 1) (by omega) (by simpa using h1) h2
      have hkk : Nat.log 10 n + 1 = k := by omega
      constructor
      · calc 10 ^ (k - 1) = 10 ^ Nat.log 10 n := by congr 1; omega
        _ ≤ n := h1
      · calc n < 10 ^ (Nat.log 10 n + 1) := h2
        _ = 10 ^ k := by congr 1
  · exact fun ⟨h1, h2⟩ => natRepr_length_eq n k (by omega) h1 h2

/-- `toString` on a nonnegative integer is the decimal representation of its
absolute value. -/
theorem intToString_ofNat (n : Nat) : toString (n : Int) = Nat.repr n := rfl

/-- Exact length of the decimal string of an integer with `k` digits (positive case). -/
theorem intToString_length_eq (x : Int) (k : Nat) (hk : 0 < k)
    (hlow : ((10 : Int)) ^ (k - 1) ≤ x) (hhigh : x < (10 : Int) ^ k) :
    (toString x).length = k := by
  have hx : 0 ≤ x := le_trans (by positivity) hlow
  obtain ⟨n, rfl⟩ : ∃ n : Nat, x = (n : Int) := ⟨x.toNat, by omega⟩
  rw [intToString_ofNat]
  apply natRepr_length_eq n k hk
  · exact_mod_cast hlow
  · exact_mod_cast hhigh

/-! ## C1: case-insensitive dispatch -/

/-- C1: `fetch` dispatches on the lower-cased exchange name: any casing of
"gemini" invokes the Gemini routine, any casing of "mofid" the Mofid routine,
and every other name falls through to the default routine with no dispatch
error (the default routine's own outcome, error or not, is returned as is). -/
theorem fetch_dispatch_case_insensitive
    (exchange base quote tf : String) (iav : Bool) (tz : Int)
    (netCsv : String → Except String CsvFile)
    (netJson : String → Except String MofidResponse) :
    (lowercase exchange = "gemini" →
      fetch exchange base quote tf iav tz netCsv netJson =
        fetch_gemini base quote tf netCsv) ∧
    (lowercase exchange = "mofid" →
      fetch exchange base quote tf iav tz netCsv netJson =
        fetch_mofid base quote tf tz netJson) ∧
    (lowercase exchange ≠ "gemini" → lowercase exchange ≠ "mofid" →
      fetch exchange base quote tf iav tz netCsv netJson =
        fetch_default exchange base quote tf iav netCsv) := by
  refine ⟨fun h => ?_, fun h => ?_, fun h h' => ?_⟩
  · simp [fetch, h]
  · simp [fetch, h]
  · simp [fetch, h, h']

/-- Witness for C1 at the casing "GEMINI". -/
theorem fetch_dispatch_case_insensitive_witness :
    fetch "GEMINI" "BTC" "USD" "1h" false 0 demoNetCsv demoNetJson =
      fetch_gemini "BTC" "USD" "1h" demoNetCsv :=
  (fetch_dispatch_case_insensitive "GEMINI" "BTC" "USD" "1h" false 0
    demoNetCsv demoNetJson).1 (by decide)

/-! ## C10: `include_all_volumes` is ignored by the Gemini and Mofid paths -/

/-- C10: when the exchange name matches "gemini" or "mofid"
case-insensitively, the `include_all_volumes` argument is not passed on and
the result of `fetch` does not depend on it. -/
theorem fetch_gemini_mofid_ignore_include_all_volumes
    (exchange base quote tf : String) (iav1 iav2 : Bool) (tz : Int)
    (netCsv : String → Except String CsvFile)
    (netJson : String → Except String MofidResponse)
    (h : lowercase exchange = "gemini" ∨ lowercase exchange = "mofid") :
    fetch exchange base quote tf iav1 tz netCsv netJson =
      fetch exchange base quote tf iav2 tz netCsv netJson := by
  rcases h with h | h <;> simp [fetch, h]

/-- Witness for C10 at the casing "Mofid". -/
theorem fetch_gemini_mofid_ignore_include_all_volumes_witness :
    fetch "Mofid" "IRX" "IRR" "1h" true 16200 demoNetCsv demoNetJson =
      fetch "Mofid" "IRX" "IRR" "1h" false 16200 demoNetCsv demoNetJson :=
  fetch_gemini_mofid_ignore_include_all_volumes "Mofid" "IRX" "IRR" "1h"
    true false 16200 demoNetCsv demoNetJson (Or.inr (by decide))

/-! ## C8: fail-fast error propagation in `fetch_default` -/

/-- C8: when the single HTTP/CSV retrieval of `fetch_default` fails, the very
same error is returned to the caller, and the list of issued requests is
exactly the one constructed locator — no retry, no second request, no
fallback provider. -/
theorem fetch_default_error_propagation
    (exchange base quote tf : String) (iav : Bool) (e : String)
    (net : String → Except String CsvFile)
    (h : net (cddBaseUrl ++ defaultFilename exchange base quote tf) = .error e) :
    (fetch_default exchange base quote tf iav net).1 = .error e ∧
    (fetch_default exchange base quote tf iav net).2 =
      [cddBaseUrl ++ defaultFilename exchange base quote tf] := by
  constructor
  · simp [fetch_default, h, fetchDefaultCore]
  · rfl

/-- Witness for C8: a 404 on the Binance daily locator comes back unmodified
after exactly one request. -/
theorem fetch_default_error_propagation_witness :
    (fetch_default "binance" "BTC" "USD" "d" false demoNetCsv).1 =
        .error "HTTP Error 404" ∧
    (fetch_default "binance" "BTC" "USD" "d" false demoNetCsv).2 =
      [cddBaseUrl ++ defaultFilename "binance" "BTC" "USD" "d"] :=
  fetch_default_error_propagation "binance" "BTC" "USD" "d" false
    "HTTP Error 404" demoNetCsv rfl

/-! ## C3: unix timestamp normalization (corrected) -/

/-- Counterexample to C3 as stated: the source tests `len(str(x)) == 13`,
so the 12-digit negative value -100000000000 (whose string has 13 characters
counting the sign) IS divided, although its decimal digit count is 12, not
13 — the claim predicts it is left unchanged. -/
theorem normalizeUnix_digitCount_counterexample :
    digitCount (-100000000000) ≠ 13 ∧
    normalizeUnix (-100000000000) = -100000000 ∧
    normalizeUnix (-100000000000) ≠ -100000000000 := by
  refine ⟨by decide, by decide, by decide⟩

/-- C3 amended: for nonnegative `x` (every real epoch value) the test
`len(str(x)) == 13` is exactly "decimal digit count 13", i.e.
`10^12 ≤ x < 10^13`, and on that range the result is the integer division
`x / 1000`; otherwise `x` is unchanged.  (For negative `x` the sign
character makes the source's test fire at 12 digits instead, and the
division truncates toward zero — see the counterexample.) -/
theorem normalizeUnix_amended (x : Int) (hx : 0 ≤ x) :
    normalizeUnix x = if 10 ^ 12 ≤ x ∧ x < 10 ^ 13 then x / 1000 else x := by
  unfold normalizeUnix
  by_cases h : (10 : Int) ^ 12 ≤ x ∧ x < 10 ^ 13
  · rw [if_pos h, if_pos, Int.tdiv_eq_ediv hx (by norm_num)]
    exact intToString_length_eq x 13 (by norm_num) h.1 h.2
  · rw [if_neg h, if_neg]
    intro hlen
    obtain ⟨n, rfl⟩ : ∃ n : Nat, x = (n : Int) := ⟨x.toNat, by omega⟩
    rw [intToString_ofNat] at hlen
    have hrange := (natRepr_length_eq_iff n 13 (by norm_num)).mp hlen
    exact h ⟨by exact_mod_cast hrange.1, by exact_mod_cast hrange.2⟩

/-- Witness for the amended C3 at the spec's own example values. -/
theorem normalizeUnix_amended_witness :
    (0 : Int) ≤ 1700000000000 ∧
    normalizeUnix 1700000000000 =
      (if (10 : Int) ^ 12 ≤ 1700000000000 ∧ (1700000000000 : Int) < 10 ^ 13 then
        1700000000000 / 1000 else 1700000000000) ∧
    normalizeUnix 1700000000000 = 1700000000 ∧
    normalizeUnix 1700000000 = 1700000000 :=
  ⟨by norm_num, normalizeUnix_amended 1700000000000 (by norm_num), by decide, by decide⟩

/-! ## C6: Gemini timeframe rewrite in the resource locator -/

/-- C6: the Gemini locator is
`{base}/gemini_{quote_symbol}{base_symbol}_{timeframe}.csv` where a
timeframe ending in "h" has the trailing "h" replaced by "hr" and any other
timeframe is used unchanged; "1h" gives a locator with "1hr", "1d" one with
"1d". -/
theorem fetch_gemini_locator (base quote tf : String)
    (net : String → Except String CsvFile) :
    (tf.data.getLast? = some 'h' →
      (fetch_gemini base quote tf net).2 =
        [cddBaseUrl ++ ("gemini" ++ "_" ++ quote ++ base ++ "_" ++
          ((⟨tf.data.dropLast⟩ : String) ++ "hr") ++ ".csv")]) ∧
    (tf.data.getLast? ≠ some 'h' →
      (fetch_gemini base quote tf net).2 =
        [cddBaseUrl ++ ("gemini" ++ "_" ++ quote ++ base ++ "_" ++ tf ++ ".csv")]) ∧
    (fetch_gemini base quote "1h" net).2 =
      [cddBaseUrl ++ ("gemini" ++ "_" ++ quote ++ base ++ "_" ++ "1hr" ++ ".csv")] ∧
    (fetch_gemini base quote "1d" net).2 =
      [cddBaseUrl ++ ("gemini" ++ "_" ++ quote ++ base ++ "_" ++ "1d" ++ ".csv")] := by
  refine ⟨fun h => ?_, fun h => ?_, ?_, ?_⟩
  · simp [fetch_gemini, geminiFilename, geminiTimeframe, h]
  · simp [fetch_gemini, geminiFilename, geminiTimeframe, h]
  · rfl
  · rfl

/-- Witness for C6 at timeframe "1h". -/
theorem fetch_gemini_locator_witness :
    (fetch_gemini "BTC" "USD" "1h" demoNetCsv).2 =
      [cddBaseUrl ++ ("gemini" ++ "_" ++ "USD" ++ "BTC" ++ "_" ++
        ((⟨"1h".data.dropLast⟩ : String) ++ "hr") ++ ".csv")] :=
  (fetch_gemini_locator "BTC" "USD" "1h" demoNetCsv).1 (by decide)

/-! ## C5 and C4: the Mofid routine -/

/-- The rename dict never produces the name "unix". -/
theorem defaultRename_ne_unix (base quote n : String) (h : n ≠ "unix") :
    defaultRename base quote n ≠ "unix" := by
  unfold defaultRename
  split_ifs
  · decide
  · decide
  · decide
  · exact h

/-- Reading `df["unix"]` on the renamed Mofid frame raises `KeyError`: the
constructed columns are `date,open,high,low,close,Volume <base>,volume` and
the rename maps none of them to "unix". -/
theorem mofid_getCol_unix_fails (base quote : String) (r : MofidResponse)
    (df0 : DataFrame) (h : buildMofidDf base r = .ok df0) :
    getCol (renameCols (defaultRename base quote) df0) "unix" =
      .error ("KeyError: " ++ "unix") := by
  unfold buildMofidDf at h
  split at h
  · injection h with h
    subst h
    unfold getCol
    have hnone : (renameCols (defaultRename base quote)
        ⟨[("date", r.t.map Cell.ts),
          ("open", r.o.take r.t.length), ("high", r.h.take r.t.length),
          ("low", r.l.take r.t.length), ("close", r.c.take r.t.length),
          ("Volume " ++ base, r.v.take r.t.length),
          ("volume", r.v.take r.t.length)]⟩).cols.find?
        (fun c => c.1 == "unix") = none := by
      apply List.find?_eq_none.mpr
      intro a ha
      simp only [renameCols, List.mem_map] at ha
      obtain ⟨c, hc, rfl⟩ := ha
      simp only [beq_eq_false_iff_ne, ne_eq, Bool.not_eq_true]
      apply defaultRename_ne_unix
      simp only [List.mem_cons, List.mem_singleton] at hc
      rcases hc with rfl | rfl | rfl | rfl | rfl | rfl | rfl | h7
      · dsimp only
        decide
      · dsimp only
        decide
      · dsimp only
        decide
      · dsimp only
        decide
      · dsimp only
        decide
      · dsimp only
        exact Ne.symm (ne_volume_append base "unix" (by decide))
      · dsimp only
        decide
      · exact absurd h7 (List.not_mem_nil _)
    rw [hnone]
  · exact absurd h (by simp)

/-- The Mofid routine can never return a frame: it always falls over the
missing `unix` column (or an earlier transport / shape error). -/
theorem mofidCore_isError (base quote : String)
    (input : Except String MofidResponse) (df : DataFrame) :
    mofidCore base quote input ≠ .ok df := by
  cases input with
  | error e => simp [mofidCore]
  | ok r =>
    rcases hb : buildMofidDf base r with e | df0
    · simp [mofidCore, hb]
    · simp [mofidCore, hb, mofid_getCol_unix_fails base quote r df0 hb]

/-- C5: on every well-formed Mofid JSON response (parallel arrays at least
as long as `t`) the routine builds its frame and then raises `KeyError` on
the never-created `unix` column; consequently `fetch_mofid` never returns a
PriceSeries on any input whatsoever. -/
theorem fetch_mofid_never_returns (base quote tf : String) (tz : Int)
    (resp : MofidResponse) (hwf : resp.wellFormed)
    (net : String → Except String MofidResponse)
    (hnet : net (mofidUrl base tz) = .ok resp) :
    (fetch_mofid base quote tf tz net).1 = .error ("KeyError: " ++ "unix") ∧
    ∀ (net2 : String → Except String MofidResponse) (df : DataFrame),
      (fetch_mofid base quote tf tz net2).1 ≠ .ok df := by
  constructor
  · show mofidCore base quote (net (mofidUrl base tz)) = _
    rw [hnet]
    have hb : buildMofidDf base resp = .ok ⟨[("date", resp.t.map Cell.ts),
        ("open", resp.o.take resp.t.length), ("high", resp.h.take resp.t.length),
        ("low", resp.l.take resp.t.length), ("close", resp.c.take resp.t.length),
        ("Volume " ++ base, resp.v.take resp.t.length),
        ("volume", resp.v.take resp.t.length)]⟩ := by
      unfold buildMofidDf
      rw [if_pos hwf]
    simp [mofidCore, hb, mofid_getCol_unix_fails base quote resp _ hb]
  · exact fun net2 df => mofidCore_isError base quote _ df

/-- Witness for C5: the concrete response makes the routine raise `KeyError`. -/
theorem fetch_mofid_never_returns_witness :
    (fetch_mofid "IRX" "IRR" "1h" 16200
      (fun _ => .ok demoMofidResponse)).1 = .error ("KeyError: " ++ "unix") :=
  (fetch_mofid_never_returns "IRX" "IRR" "1h" 16200 demoMofidResponse
    (by decide) (fun _ => .ok demoMofidResponse) rfl).1

/-- C4: the caller's timeframe does not influence `fetch_mofid` at all; the
single query it issues uses `resolution=1` (minute resolution) with `from`
and `to` the epoch seconds of 2022-08-24 00:00 and 23:59 local time (a
window of 86340 seconds); and every row of a returned frame would carry a
timestamp inside that window (vacuously so, as the routine never returns). -/
theorem fetch_mofid_ignores_timeframe (base quote tf1 tf2 : String) (tz : Int)
    (net : String → Except String MofidResponse) :
    fetch_mofid base quote tf1 tz net = fetch_mofid base quote tf2 tz net ∧
    (fetch_mofid base quote tf1 tz net).2 =
      ["https://rlcchartapi.mofidonline.com/ChartData/history?symbol=" ++ base
        ++ "&resolution=1&from=" ++ toString (aug24UtcMidnight - tz)
        ++ "&to=" ++ toString (aug24UtcMidnight + 86340 - tz)] ∧
    mofidEndEpoch tz - mofidStartEpoch tz = 86340 ∧
    (∀ df : DataFrame, (fetch_mofid base quote tf1 tz net).1 = .ok df →
      ∀ c ∈ df.cols, c.1 = "date" →
        ∀ v ∈ c.2, ∃ n : Int, v = Cell.ts n ∧
          mofidStartEpoch tz ≤ n ∧ n ≤ mofidEndEpoch tz) := by
  refine ⟨rfl, rfl, by simp [mofidStartEpoch, mofidEndEpoch], ?_⟩
  intro df hdf
  exact absurd hdf (mofidCore_isError base quote _ df)

/-- Witness for C4: two different timeframes produce identical calls. -/
theorem fetch_mofid_ignores_timeframe_witness :
    fetch_mofid "IRX" "IRR" "1h" 16200 demoNetJson =
      fetch_mofid "IRX" "IRR" "7d" 16200 demoNetJson :=
  (fetch_mofid_ignores_timeframe "IRX" "IRR" "1h" "7d" 16200 demoNetJson).1

/-- The reversed raw values of the j-th CSV column. -/
def colv (rows : List (List Cell)) (j : Nat) : List Cell :=
  (rows.map (fun r => r.getD j Cell.na)).reverse

theorem fetchDefaultCore_stdHeader (base quote : String) (rows : List (List Cell))
    (iav : Bool) (us : List Int) (hbq : base ≠ quote)
    (hu : astypeInt (colv rows 0) = .ok us) :
    fetchDefaultCore base quote iav (.ok ⟨stdHeader base quote, rows⟩) =
      .ok ⟨("date", (us.map normalizeUnix).map Cell.ts) ::
           ("unix", (us.map normalizeUnix).map Cell.int) ::
           ("open", colv rows 3) :: ("high", colv rows 4) ::
           ("low", colv rows 5) :: ("close", colv rows 6) ::
           (if iav then [("volume_base", colv rows 7), ("volume_quote", colv rows 8)]
            else [("volume", colv rows 7)])⟩ := by
  have hvbq : ¬("Volume " ++ base = "Volume " ++ quote) :=
    fun h => hbq (volume_append_inj base quote h)
  have h1q : ¬("unix" = "Volume " ++ quote) := ne_volume_append quote "unix" (by decide)
  have h2q : ¬("date" = "Volume " ++ quote) := ne_volume_append quote "date" (by decide)
  have h3q : ¬("open" = "Volume " ++ quote) := ne_volume_append quote "open" (by decide)
  have h4q : ¬("high" = "Volume " ++ quote) := ne_volume_append quote "high" (by decide)
  have h5q : ¬("low" = "Volume " ++ quote) := ne_volume_append quote "low" (by decide)
  have h6q : ¬("close" = "Volume " ++ quote) := ne_volume_append quote "close" (by decide)
  have h1b : ¬("unix" = "Volume " ++ base) := ne_volume_append base "unix" (by decide)
  have h2b : ¬("date" = "Volume " ++ base) := ne_volume_append base "date" (by decide)
  have h3b : ¬("open" = "Volume " ++ base) := ne_volume_append base "open" (by decide)
  have h4b : ¬("high" = "Volume " ++ base) := ne_volume_append base "high" (by decide)
  have h5b : ¬("low" = "Volume " ++ base) := ne_volume_append base "low" (by decide)
  have h6b : ¬("close" = "Volume " ++ base) := ne_volume_append base "close" (by decide)
  have hbs : ¬("Volume " ++ base = "symbol") :=
    Ne.symm (ne_volume_append base "symbol" (by decide))
  have hqs : ¬("Volume " ++ quote = "symbol") :=
    Ne.symm (ne_volume_append quote "symbol" (by decide))
  have hlow1 : lowercase "unix" = "unix" := rfl
  have hlow2 : lowercase "open" = "open" := rfl
  have hlow3 : lowercase "high" = "high" := rfl
  have hlow4 : lowercase "low" = "low" := rfl
  have hlow5 : lowercase "close" = "close" := rfl
  have hlow6 : lowercase "volume_base" = "volume_base" := rfl
  have hlow7 : lowercase "volume_quote" = "volume_quote" := rfl
  have hu' : astypeInt ((rows.map (fun r => r[0]?.getD Cell.na)).reverse) = .ok us := by
    simpa [colv, List.getD] using hu
  cases iav <;>
  simp [fetchDefaultCore, parseCsv, stdHeader, colsFrom, reverseRows, dropCols,
    renameCols, getCol, setCol, setIndexResetLower, defaultRename, colv, hu',
    hvbq, h1q, h2q, h3q, h4q, h5q, h6q, h1b, h2b, h3b, h4b, h5b, h6b, hbs, hqs,
    hlow1, hlow2, hlow3, hlow4, hlow5, hlow6, hlow7]

/-- When `astype(int)` on the reversed `unix` column fails, the whole default
pipeline fails. -/
theorem fetchDefaultCore_stdHeader_err (base quote : String) (rows : List (List Cell))
    (iav : Bool) (e : String) (hbq : base ≠ quote)
    (hu : astypeInt (colv rows 0) = .error e) :
    fetchDefaultCore base quote iav (.ok ⟨stdHeader base quote, rows⟩) = .error e := by
  have hvbq : ¬("Volume " ++ base = "Volume " ++ quote) :=
    fun h => hbq (volume_append_inj base quote h)
  have h1q : ¬("unix" = "Volume " ++ quote) := ne_volume_append quote "unix" (by decide)
  have h2q : ¬("date" = "Volume " ++ quote) := ne_volume_append quote "date" (by decide)
  have h3q : ¬("open" = "Volume " ++ quote) := ne_volume_append quote "open" (by decide)
  have h4q : ¬("high" = "Volume " ++ quote) := ne_volume_append quote "high" (by decide)
  have h5q : ¬("low" = "Volume " ++ quote) := ne_volume_append quote "low" (by decide)
  have h6q : ¬("close" = "Volume " ++ quote) := ne_volume_append quote "close" (by decide)
  have h1b : ¬("unix" = "Volume " ++ base) := ne_volume_append base "unix" (by decide)
  have h2b : ¬("date" = "Volume " ++ base) := ne_volume_append base "date" (by decide)
  have h3b : ¬("open" = "Volume " ++ base) := ne_volume_append base "open" (by decide)
  have h4b : ¬("high" = "Volume " ++ base) := ne_volume_append base "high" (by decide)
  have h5b : ¬("low" = "Volume " ++ base) := ne_volume_append base "low" (by decide)
  have h6b : ¬("close" = "Volume " ++ base) := ne_volume_append base "close" (by decide)
  have hbs : ¬("Volume " ++ base = "symbol") :=
    Ne.symm (ne_volume_append base "symbol" (by decide))
  have hqs : ¬("Volume " ++ quote = "symbol") :=
    Ne.symm (ne_volume_append quote "symbol" (by decide))
  have hu' : astypeInt ((rows.map (fun r => r[0]?.getD Cell.na)).reverse) = .error e := by
    simpa [colv, List.getD] using hu
  cases iav <;>
  simp [fetchDefaultCore, parseCsv, stdHeader, colsFrom, reverseRows, dropCols,
    renameCols, getCol, setCol, setIndexResetLower, defaultRename, hu',
    hvbq, h1q, h2q, h3q, h4q, h5q, h6q, h1b, h2b, h3b, h4b, h5b, h6b, hbs, hqs]

/-- C2: volume-column presence after a successful default fetch of a
standard-header CSV. -/
theorem fetch_default_volume_columns
    (exchange base quote tf : String) (rows : List (List Cell)) (iav : Bool)
    (df : DataFrame) (hbq : base ≠ quote)
    (h : (fetch_default exchange base quote tf iav
      (fun _ => .ok ⟨stdHeader base quote, rows⟩)).1 = .ok df) :
    (iav = false →
      df.names.count "volume" = 1 ∧
        "volume_base" ∉ df.names ∧ "volume_quote" ∉ df.names) ∧
    (iav = true →
      "volume_base" ∈ df.names ∧ "volume_quote" ∈ df.names ∧
        "volume" ∉ df.names) := by
  have h' : fetchDefaultCore base quote iav (.ok ⟨stdHeader base quote, rows⟩) = .ok df := h
  rcases hau : astypeInt (colv rows 0) with e | us
  · rw [fetchDefaultCore_stdHeader_err base quote rows iav e hbq hau] at h'
    cases h'
  · rw [fetchDefaultCore_stdHeader base quote rows iav us hbq hau] at h'
    injection h' with h'
    subst h'
    cases iav <;> constructor <;> intro hi <;> try cases hi
    · refine ⟨?_, ?_, ?_⟩ <;> simp [DataFrame.names]
    · refine ⟨?_, ?_, ?_⟩ <;> simp [DataFrame.names]

set_option maxHeartbeats 1000000 in
/-- C7: the round-trip over a three-row newest-first fixture with 13-digit
millisecond stamps. -/
theorem fetch_default_roundtrip
    (exchange base quote tf : String) (n0 n1 n2 : Int)
    (rest0 rest1 rest2 : List Cell) (df : DataFrame) (hbq : base ≠ quote)
    (hlo : 10 ^ 12 ≤ n2) (h21 : n2 < n1) (h10 : n1 < n0) (hhi : n0 < 10 ^ 13)
    (h : (fetch_default exchange base quote tf false
      (fun _ => .ok ⟨stdHeader base quote,
        [Cell.int n0 :: rest0, Cell.int n1 :: rest1, Cell.int n2 :: rest2]⟩)).1 =
      .ok df) :
    (∀ c ∈ df.cols, c.2.length = 3) ∧
    getCol df "unix" =
      .ok [Cell.int (n2 / 1000), Cell.int (n1 / 1000), Cell.int (n0 / 1000)] ∧
    getCol df "date" =
      .ok [Cell.ts (n2 / 1000), Cell.ts (n1 / 1000), Cell.ts (n0 / 1000)] ∧
    n2 / 1000 ≤ n1 / 1000 ∧ n1 / 1000 ≤ n0 / 1000 ∧
    (toString (n2 / 1000)).length = 10 ∧ (toString (n1 / 1000)).length = 10 ∧
    (toString (n0 / 1000)).length = 10 ∧
    (toString n0).length = 13 ∧ (toString n1).length = 13 ∧
    (toString n2).length = 13 := by
  rw [show ((10 : Int) ^ 12) = 1000000000000 from by norm_num] at hlo
  rw [show ((10 : Int) ^ 13) = 10000000000000 from by norm_num] at hhi
  have hlen13 : ∀ m : Int, 1000000000000 ≤ m → m < 10000000000000 →
      (toString m).length = 13 := by
    intro m hm1 hm2
    apply intToString_length_eq m 13 (by norm_num)
    · show (10 : Int) ^ (13 - 1) ≤ m
      norm_num
      omega
    · show m < (10 : Int) ^ 13
      norm_num
      omega
  have hlen10 : ∀ m : Int, 1000000000000 ≤ m → m < 10000000000000 →
      (toString (m / 1000)).length = 10 := by
    intro m hm1 hm2
    apply intToString_length_eq (m / 1000) 10 (by norm_num)
    · show (10 : Int) ^ (10 - 1) ≤ m / 1000
      norm_num
      omega
    · show m / 1000 < (10 : Int) ^ 10
      norm_num
      omega
  have hnorm : ∀ m : Int, 1000000000000 ≤ m → m < 10000000000000 →
      normalizeUnix m = m / 1000 := by
    intro m hm1 hm2
    unfold normalizeUnix
    rw [if_pos (hlen13 m hm1 hm2), Int.tdiv_eq_ediv (by omega) (by norm_num)]
  have hb0a : (1000000000000 : Int) ≤ n0 := by omega
  have hb0b : n0 < (10000000000000 : Int) := hhi
  have hb1a : (1000000000000 : Int) ≤ n1 := by omega
  have hb1b : n1 < (10000000000000 : Int) := by omega
  have hb2a : (1000000000000 : Int) ≤ n2 := hlo
  have hb2b : n2 < (10000000000000 : Int) := by omega
  have hau : astypeInt (colv
      [Cell.int n0 :: rest0, Cell.int n1 :: rest1, Cell.int n2 :: rest2] 0) =
      .ok [n2, n1, n0] := by
    simp [colv, astypeInt]
  have h' : fetchDefaultCore base quote false (.ok ⟨stdHeader base quote,
      [Cell.int n0 :: rest0, Cell.int n1 :: rest1, Cell.int n2 :: rest2]⟩) =
      .ok df := h
  rw [fetchDefaultCore_stdHeader base quote _ false [n2, n1, n0] hbq hau] at h'
  injection h' with h'
  subst h'
  refine ⟨?_, ?_, ?_, by omega, by omega, hlen10 n2 hb2a hb2b,
    hlen10 n1 hb1a hb1b, hlen10 n0 hb0a hb0b,
    hlen13 n0 hb0a hb0b, hlen13 n1 hb1a hb1b, hlen13 n2 hb2a hb2b⟩
  · intro c hc
    simp only [List.mem_cons, if_neg Bool.false_ne_true] at hc
    rcases hc with rfl | rfl | rfl | rfl | rfl | rfl | hc
    · simp
    · simp
    · simp [colv]
    · simp [colv]
    · simp [colv]
    · simp [colv]
    · simp at hc
      subst hc
      simp [colv]
  · simp [getCol, hnorm n0 hb0a hb0b, hnorm n1 hb1a hb1b, hnorm n2 hb2a hb2b]
  · simp [getCol, hnorm n0 hb0a hb0b, hnorm n1 hb1a hb1b, hnorm n2 hb2a hb2b]

/-- Membership of a name among a frame's columns survives `setCol`. -/
theorem names_setCol (df : DataFrame) (n : String) (vs : List Cell) (x : String)
    (hx : x ∈ df.names) : x ∈ (setCol df n vs).names := by
  unfold setCol
  split
  · unfold DataFrame.names at *
    rw [List.map_map]
    obtain ⟨c, hc, hce⟩ := List.mem_map.mp hx
    refine List.mem_map.mpr ⟨c, hc, ?_⟩
    simp only [Function.comp_apply]
    split <;> simp [hce]
  · unfold DataFrame.names at *
    rw [List.map_append]
    exact List.mem_append_left _ hx

/-- `setIndexResetLower` keeps every lower-case column name other than the
extracted index. -/
theorem names_setIndexResetLower (df df' : DataFrame) (x : String)
    (hx : x ∈ df.names) (hxd : x ≠ "date") (hlx : lowercase x = x)
    (h : setIndexResetLower df = .ok df') : x ∈ df'.names := by
  unfold setIndexResetLower at h
  rcases hfind : df.cols.find? (fun c => c.1 == "date") with _ | c
  · rw [hfind] at h; cases h
  · rw [hfind] at h
    injection h with h
    subst h
    unfold DataFrame.names at *
    obtain ⟨col, hcol, hname⟩ := List.mem_map.mp hx
    rw [List.map_cons]
    apply List.mem_cons_of_mem
    rw [List.map_map]
    refine List.mem_map.mpr ⟨col, ?_, ?_⟩
    · exact (List.mem_eraseP_of_neg (by simp [hname, hxd])).mpr hcol
    · simp [hname, hlx]

/-- Membership survives a column drop of other labels. -/
theorem names_dropCols (df df' : DataFrame) (labels : List String) (x : String)
    (hx : x ∈ df.names) (hxn : labels.contains x = false)
    (h : dropCols df labels = .ok df') : x ∈ df'.names := by
  unfold dropCols at h
  split at h
  · injection h with h
    subst h
    unfold DataFrame.names at *
    obtain ⟨col, hcol, hname⟩ := List.mem_map.mp hx
    refine List.mem_map.mpr ⟨col, List.mem_filter.mpr ⟨hcol, ?_⟩, hname⟩
    simp only [hname, Bool.not_eq_true']
    exact hxn
  · cases h

/-- Renaming transports membership through the rename function. -/
theorem names_renameCols (df : DataFrame) (f : String → String) (x : String)
    (hx : x ∈ df.names) : f x ∈ (renameCols f df).names := by
  unfold renameCols DataFrame.names at *
  rw [List.map_map]
  obtain ⟨col, hcol, hname⟩ := List.mem_map.mp hx
  exact List.mem_map.mpr ⟨col, hcol, by simp [hname]⟩

/-- A successful column read means the name is present. -/
theorem mem_names_of_getCol (df : DataFrame) (n : String) (vs : List Cell)
    (h : getCol df n = .ok vs) : n ∈ df.names := by
  unfold getCol at h
  rcases hfind : df.cols.find? (fun c => c.1 == n) with _ | c
  · rw [hfind] at h; cases h
  · have hmem := List.mem_of_find?_eq_some hfind
    have hp := List.find?_some hfind
    simp at hp
    exact List.mem_map.mpr ⟨c, hmem, hp⟩

/-- C9: every successful `fetch_default` result keeps a column named "unix". -/
theorem fetch_default_retains_unix
    (exchange base quote tf : String) (iav : Bool)
    (net : String → Except String CsvFile) (df : DataFrame)
    (h : (fetch_default exchange base quote tf iav net).1 = .ok df) :
    "unix" ∈ df.names := by
  have h' : fetchDefaultCore base quote iav
      (net (cddBaseUrl ++ defaultFilename exchange base quote tf)) = .ok df := h
  cases hnet : net (cddBaseUrl ++ defaultFilename exchange base quote tf) with
  | error e => rw [hnet] at h'; simp [fetchDefaultCore] at h'
  | ok file =>
    rw [hnet] at h'
    simp only [fetchDefaultCore] at h'
    rcases hdrop : dropCols (reverseRows (parseCsv file)) ["symbol"] with e | df1
    · simp only [hdrop] at h'
      cases h'
    simp only [hdrop] at h'
    rcases hget : getCol (renameCols (defaultRename base quote) df1) "unix"
      with e | uraw
    · simp only [hget] at h'
      cases h'
    simp only [hget] at h'
    rcases hast : astypeInt uraw with e | u0
    · simp only [hast] at h'
      cases h'
    simp only [hast] at h'
    rcases hset : setIndexResetLower
        (setCol (setCol (renameCols (defaultRename base quote) df1) "unix"
          ((u0.map normalizeUnix).map Cell.int)) "date"
          ((u0.map normalizeUnix).map Cell.ts)) with e | df5
    · simp only [hset] at h'
      cases h'
    simp only [hset] at h'
    have m1 : "unix" ∈ (renameCols (defaultRename base quote) df1).names :=
      mem_names_of_getCol _ _ _ hget
    have m2 := names_setCol (renameCols (defaultRename base quote) df1) "unix"
      ((u0.map normalizeUnix).map Cell.int) "unix" m1
    have m3 := names_setCol _ "date" ((u0.map normalizeUnix).map Cell.ts) "unix" m2
    have m4 : "unix" ∈ df5.names :=
      names_setIndexResetLower _ df5 "unix" m3 (by decide) rfl hset
    cases iav with
    | true =>
      simp at h'
      subst h'
      exact m4
    | false =>
      rcases hdrop2 : dropCols df5 ["volume_quote"] with e | df6
      · simp only [hdrop2, Bool.false_eq_true, if_false] at h'
        cases h'
      simp only [hdrop2, Bool.false_eq_true, if_false] at h'
      injection h' with h'
      subst h'
      have m5 : "unix" ∈ df6.names :=
        names_dropCols df5 df6 ["volume_quote"] "unix" m4 (by decide) hdrop2
      have m6 := names_renameCols df6
        (fun n => if n = "volume_base" then "volume" else n) "unix" m5
      simpa using m6

/-- Witness for C2 on the fixture CSV. -/
theorem fetch_default_volume_columns_witness :
    fixtureResult.names.count "volume" = 1 ∧
      "volume_base" ∉ fixtureResult.names ∧ "volume_quote" ∉ fixtureResult.names :=
  (fetch_default_volume_columns "binance" "BTC" "USD" "d" fixtureRows false
    fixtureResult (by decide) rfl).1 rfl

/-- Witness for C7 on the fixture CSV. -/
theorem fetch_default_roundtrip_witness :
    getCol fixtureResult "unix" =
      .ok [Cell.int (1700000000000 / 1000), Cell.int (1700000100000 / 1000),
           Cell.int (1700000200000 / 1000)] :=
  (fetch_default_roundtrip "binance" "BTC" "USD" "d"
    1700000200000 1700000100000 1700000000000 fixTail fixTail fixTail
    fixtureResult (by decide) (by norm_num) (by norm_num) (by norm_num)
    (by norm_num) rfl).2.1

/-- Witness for C9 on the fixture CSV. -/
theorem fetch_default_retains_unix_witness :
    "unix" ∈ fixtureResult.names :=
  fetch_default_retains_unix "binance" "BTC" "USD" "d" false fixtureNet
    fixtureResult rfl
